import Mathlib

/-!
Shallow embedding of `src/app/models.py` (SQLModel / pydantic declarative
schema for an EIA energy-market dashboard).

Modelling conventions:

* Every pydantic model becomes a Lean structure and a validating
  constructor `mk<Model>`.  Each constructor argument is wrapped in
  `Option`: `none` means the keyword argument was omitted from the
  constructor call.  A required field (no default in the source) rejects
  omission; a field with a default fills it in; a field declared
  `Optional[T] = None` stores `none` (an explicit `None` argument and an
  omitted argument coincide for such fields, so the one `Option` layer
  represents both).
* `Decimal` values are `Dec`: an integer mantissa and an integer exponent,
  the value being `mantissa * 10 ^ exponent` — exactly the (sign, digits,
  exponent) triple of Python's `decimal.Decimal.as_tuple`.  The
  `max_digits` / `decimal_places` check follows pydantic's digit counting.
* `date` values are `PyDate` triples ordered lexicographically by
  (year, month, day); the schema puts no constraint on them.
* Enum-typed fields take a `String` and parse it with the enum's
  `ofString`, which accepts exactly the literal member values, as pydantic
  does for a `str`-valued `Enum`.
* `id` primary keys (`Optional[int] = None`) are kept; the
  `created_at` / `updated_at` / `last_updated` columns
  (`default_factory=datetime.utcnow`, a wall-clock side effect) and the
  ORM `Relationship` attributes (persistence-layer joins, not constructor
  data) are not modelled.
* `Dict[str, Any]` JSON blobs carry no constraint at this layer; they are
  modelled as association lists with string payloads.
-/

namespace EIA

/-! ## Enumerations (models.py lines 8-45) -/

inductive DataSourceType where
  | STEO | PSM | WEEKLY
deriving DecidableEq, Repr

inductive ProductType where
  | CRUDE_OIL | GASOLINE | DISTILLATE | RESIDUAL | JET_FUEL | PROPANE | NATURAL_GAS
deriving DecidableEq, Repr

inductive DispositionType where
  | PRODUCTION | IMPORTS | EXPORTS | STOCK_CHANGE | REFINERY_INPUT | DEMAND
deriving DecidableEq, Repr

inductive ScenarioType where
  | BASELINE | HURRICANE | SUPPLY_SHOCK | DEMAND_SURGE | REFINERY_OUTAGE
deriving DecidableEq, Repr

inductive SeverityLevel where
  | LOW | MODERATE | HIGH | EXTREME
deriving DecidableEq, Repr

def DataSourceType.ofString (s : String) : Option DataSourceType :=
  if s = "STEO" then some .STEO
  else if s = "PSM" then some .PSM
  else if s = "WEEKLY" then some .WEEKLY
  else none

def ProductType.ofString (s : String) : Option ProductType :=
  if s = "CRUDE_OIL" then some .CRUDE_OIL
  else if s = "GASOLINE" then some .GASOLINE
  else if s = "DISTILLATE" then some .DISTILLATE
  else if s = "RESIDUAL" then some .RESIDUAL
  else if s = "JET_FUEL" then some .JET_FUEL
  else if s = "PROPANE" then some .PROPANE
  else if s = "NATURAL_GAS" then some .NATURAL_GAS
  else none

def DispositionType.ofString (s : String) : Option DispositionType :=
  if s = "PRODUCTION" then some .PRODUCTION
  else if s = "IMPORTS" then some .IMPORTS
  else if s = "EXPORTS" then some .EXPORTS
  else if s = "STOCK_CHANGE" then some .STOCK_CHANGE
  else if s = "REFINERY_INPUT" then some .REFINERY_INPUT
  else if s = "DEMAND" then some .DEMAND
  else none

def ScenarioType.ofString (s : String) : Option ScenarioType :=
  if s = "BASELINE" then some .BASELINE
  else if s = "HURRICANE" then some .HURRICANE
  else if s = "SUPPLY_SHOCK" then some .SUPPLY_SHOCK
  else if s = "DEMAND_SURGE" then some .DEMAND_SURGE
  else if s = "REFINERY_OUTAGE" then some .REFINERY_OUTAGE
  else none

def SeverityLevel.ofString (s : String) : Option SeverityLevel :=
  if s = "LOW" then some .LOW
  else if s = "MODERATE" then some .MODERATE
  else if s = "HIGH" then some .HIGH
  else if s = "EXTREME" then some .EXTREME
  else none

/-! ## Decimal values and pydantic's precision check -/

/-- A `decimal.Decimal`: value `mantissa * 10 ^ exponent`. -/
structure Dec where
  mantissa : Int
  exponent : Int
deriving DecidableEq, Repr

/-- `Decimal("0")`: digit tuple `(0,)`, exponent `0`. -/
def dec0 : Dec := ⟨0, 0⟩

/-- `Decimal("1.0")`: digit tuple `(1, 0)`, exponent `-1`. -/
def dec1 : Dec := ⟨10, -1⟩

/-- The rational value a `Dec` denotes. -/
def Dec.toRat (d : Dec) : ℚ := (d.mantissa : ℚ) * (10 : ℚ) ^ d.exponent

/-- Digit-count worker: structural recursion on a fuel bound (`n` itself
bounds the number of divisions by `10`). -/
def digitLenAux : Nat → Nat → Nat
  | 0, _ => 1
  | fuel + 1, n => if n < 10 then 1 else digitLenAux fuel (n / 10) + 1

/-- Length of Python's digit tuple for a mantissa: the number of decimal
digits, with `0` written as the single digit `0`. -/
def digitLen (n : Nat) : Nat := digitLenAux n n

/-- (digits, decimals) as pydantic counts them from `as_tuple`. -/
def decDigits (d : Dec) : Nat × Nat :=
  let len := digitLen d.mantissa.natAbs
  if 0 ≤ d.exponent then (len + d.exponent.toNat, 0)
  else
    let e := (-d.exponent).toNat
    if len < e then (e, e) else (len, e)

/-- pydantic's `max_digits` / `decimal_places` validation: total digits,
fractional digits, and whole digits each within bounds. -/
def decValid (maxDigits decimalPlaces : Nat) (d : Dec) : Bool :=
  let p := decDigits d
  decide (p.1 ≤ maxDigits) && decide (p.2 ≤ decimalPlaces) &&
    decide (p.1 - p.2 ≤ maxDigits - decimalPlaces)

/-! ## Dates and small validation helpers -/

/-- A `datetime.date` (the schema constrains none of its components). -/
structure PyDate where
  year : Int
  month : Nat
  day : Nat
deriving DecidableEq, Repr

/-- A `datetime.datetime` (unconstrained wherever the schema accepts one
from the caller, e.g. `DataAlert.last_triggered`). -/
structure PyDateTime where
  date : PyDate
  hour : Nat
  minute : Nat
  second : Nat
deriving DecidableEq, Repr

/-- Strict chronological order on dates. -/
def PyDate.lt (a b : PyDate) : Bool :=
  decide (a.year < b.year) ||
    (decide (a.year = b.year) &&
      (decide (a.month < b.month) ||
        (decide (a.month = b.month) && decide (a.day < b.day))))

/-- `max_length=n` on a required string field. -/
def strLenOk (n : Nat) (s : String) : Bool := decide (s.length ≤ n)

/-- `max_length=n` on an `Optional[str]` field. -/
def optLenOk (n : Nat) : Option String → Bool
  | none => true
  | some s => strLenOk n s

/-- A provided decimal must satisfy its precision bounds. -/
def optDecOk (maxDigits decimalPlaces : Nat) : Option Dec → Bool
  | none => true
  | some d => decValid maxDigits decimalPlaces d

/-- `ge=lo, le=hi` on a provided integer. -/
def intRangeOk (lo hi v : Int) : Bool := decide (lo ≤ v) && decide (v ≤ hi)

/-- `ge=lo` on a provided integer. -/
def intGeOk (lo v : Int) : Bool := decide (lo ≤ v)

/-- `ge=lo, le=hi` on an `Optional[int]` field. -/
def optIntRangeOk (lo hi : Int) : Option Int → Bool
  | none => true
  | some v => intRangeOk lo hi v

/-- Parse an `Optional` enum field: an omitted value stays null, a
provided string must be a member value. -/
def parseOptEnum {α : Type} (f : String → Option α) :
    Option String → Option (Option α)
  | none => some none
  | some s => (f s).map some

/-- A JSON object value (`Dict[str, Any]`); unconstrained at this layer. -/
abbrev JsonDict : Type := List (String × String)

/-- The empty JSON object `{}` used as a default. -/
def emptyJsonDict : JsonDict := []

/-! ## EIADataPoint (models.py lines 51-66) -/

structure EIADataPoint where
  id : Option Int
  series_id : String
  data_source : DataSourceType
  product_type : ProductType
  disposition_type : DispositionType
  period_date : PyDate
  value : Dec
  unit : String
  region : Option String
deriving DecidableEq, Repr

/-- Validating constructor for `EIADataPoint`. -/
def mkEIADataPoint (id : Option Int) (series_id : Option String)
    (data_source : Option String) (product_type : Option String)
    (disposition_type : Option String) (period_date : Option PyDate)
    (value : Option Dec) (unit : Option String) (region : Option String) :
    Option EIADataPoint :=
  match series_id, data_source, product_type, disposition_type, period_date,
      value, unit with
  | some sid, some dsS, some ptS, some dtS, some pd, some v, some u =>
    match DataSourceType.ofString dsS, ProductType.ofString ptS,
        DispositionType.ofString dtS with
    | some ds, some pt, some dt =>
      if strLenOk 100 sid && decValid 15 2 v && strLenOk 50 u &&
          optLenOk 100 region then
        some { id := id, series_id := sid, data_source := ds,
               product_type := pt, disposition_type := dt,
               period_date := pd, value := v, unit := u, region := region }
      else none
    | _, _, _ => none
  | _, _, _, _, _, _, _ => none

/-! ## STEOData (models.py lines 72-85) -/

structure STEOData where
  id : Option Int
  series_id : String
  product_type : ProductType
  forecast_period : PyDate
  forecast_value : Dec
  unit : String
  confidence_interval_low : Option Dec
  confidence_interval_high : Option Dec
deriving DecidableEq, Repr

/-- Validating constructor for `STEOData`. -/
def mkSTEOData (id : Option Int) (series_id : Option String)
    (product_type : Option String) (forecast_period : Option PyDate)
    (forecast_value : Option Dec) (unit : Option String)
    (confidence_interval_low confidence_interval_high : Option Dec) :
    Option STEOData :=
  match series_id, product_type, forecast_period, forecast_value, unit with
  | some sid, some ptS, some fp, some fv, some u =>
    match ProductType.ofString ptS with
    | some pt =>
      if strLenOk 100 sid && decValid 15 2 fv && strLenOk 50 u &&
          optDecOk 15 2 confidence_interval_low &&
          optDecOk 15 2 confidence_interval_high then
        some { id := id, series_id := sid, product_type := pt,
               forecast_period := fp, forecast_value := fv, unit := u,
               confidence_interval_low := confidence_interval_low,
               confidence_interval_high := confidence_interval_high }
      else none
    | none => none
  | _, _, _, _, _ => none

/-! ## PSMData (models.py lines 88-101) -/

structure PSMData where
  id : Option Int
  series_id : String
  product_type : ProductType
  disposition_type : DispositionType
  report_month : PyDate
  value : Dec
  unit : String
  revision_flag : Bool
deriving DecidableEq, Repr

/-- Validating constructor for `PSMData`. -/
def mkPSMData (id : Option Int) (series_id : Option String)
    (product_type : Option String) (disposition_type : Option String)
    (report_month : Option PyDate) (value : Option Dec)
    (unit : Option String) (revision_flag : Option Bool) : Option PSMData :=
  match series_id, product_type, disposition_type, report_month, value,
      unit with
  | some sid, some ptS, some dtS, some rm, some v, some u =>
    match ProductType.ofString ptS, DispositionType.ofString dtS with
    | some pt, some dt =>
      if strLenOk 100 sid && decValid 15 2 v && strLenOk 50 u then
        some { id := id, series_id := sid, product_type := pt,
               disposition_type := dt, report_month := rm, value := v,
               unit := u, revision_flag := revision_flag.getD false }
      else none
    | _, _ => none
  | _, _, _, _, _, _ => none

/-! ## WeeklyData (models.py lines 104-117) -/

structure WeeklyData where
  id : Option Int
  series_id : String
  product_type : ProductType
  disposition_type : DispositionType
  week_ending : PyDate
  value : Dec
  unit : String
  seasonal_adjustment : Option String
deriving DecidableEq, Repr

/-- Validating constructor for `WeeklyData`. -/
def mkWeeklyData (id : Option Int) (series_id : Option String)
    (product_type : Option String) (disposition_type : Option String)
    (week_ending : Option PyDate) (value : Option Dec)
    (unit : Option String) (seasonal_adjustment : Option String) :
    Option WeeklyData :=
  match series_id, product_type, disposition_type, week_ending, value,
      unit with
  | some sid, some ptS, some dtS, some we, some v, some u =>
    match ProductType.ofString ptS, DispositionType.ofString dtS with
    | some pt, some dt =>
      if strLenOk 100 sid && decValid 15 2 v && strLenOk 50 u &&
          optLenOk 50 seasonal_adjustment then
        some { id := id, series_id := sid, product_type := pt,
               disposition_type := dt, week_ending := we, value := v,
               unit := u, seasonal_adjustment := seasonal_adjustment }
      else none
    | _, _ => none
  | _, _, _, _, _, _ => none

/-! ## SupplyDisposition (models.py lines 123-149) -/

structure SupplyDisposition where
  id : Option Int
  product_type : ProductType
  period_date : PyDate
  data_point_id : Option Int
  production : Dec
  imports : Dec
  stock_withdrawal : Dec
  exports : Dec
  refinery_input : Dec
  product_supplied : Dec
  stock_build : Dec
  unit : String
  region : Option String
deriving DecidableEq, Repr

/-- Validating constructor for `SupplyDisposition`: the seven balance
components default to `Decimal("0")`, `data_point_id` is nullable. -/
def mkSupplyDisposition (id : Option Int) (product_type : Option String)
    (period_date : Option PyDate) (data_point_id : Option Int)
    (production imports stock_withdrawal exports refinery_input
      product_supplied stock_build : Option Dec)
    (unit : Option String) (region : Option String) :
    Option SupplyDisposition :=
  match product_type, period_date, unit with
  | some ptS, some pd, some u =>
    match ProductType.ofString ptS with
    | some pt =>
      if optDecOk 15 2 production && optDecOk 15 2 imports &&
          optDecOk 15 2 stock_withdrawal && optDecOk 15 2 exports &&
          optDecOk 15 2 refinery_input && optDecOk 15 2 product_supplied &&
          optDecOk 15 2 stock_build && strLenOk 50 u && optLenOk 100 region then
        some { id := id, product_type := pt, period_date := pd,
               data_point_id := data_point_id,
               production := production.getD dec0,
               imports := imports.getD dec0,
               stock_withdrawal := stock_withdrawal.getD dec0,
               exports := exports.getD dec0,
               refinery_input := refinery_input.getD dec0,
               product_supplied := product_supplied.getD dec0,
               stock_build := stock_build.getD dec0,
               unit := u, region := region }
      else none
    | none => none
  | _, _, _ => none

/-! ## Scenario (models.py lines 155-185) -/

structure Scenario where
  id : Option Int
  name : String
  description : String
  scenario_type : ScenarioType
  severity_level : SeverityLevel
  start_date : PyDate
  end_date : PyDate
  hurricane_category : Option Int
  affected_regions : List String
  production_impact_pct : Dec
  refining_capacity_impact_pct : Dec
  import_disruption_pct : Dec
  parameters : JsonDict
  is_active : Bool
  created_by : Option String
deriving DecidableEq, Repr

/-- Validating constructor for `Scenario`.  No relation between
`start_date` and `end_date` is declared, so none is checked. -/
def mkScenario (id : Option Int) (name : Option String)
    (description : Option String) (scenario_type : Option String)
    (severity_level : Option String) (start_date : Option PyDate)
    (end_date : Option PyDate) (hurricane_category : Option Int)
    (affected_regions : Option (List String))
    (production_impact_pct refining_capacity_impact_pct
      import_disruption_pct : Option Dec)
    (parameters : Option JsonDict) (is_active : Option Bool)
    (created_by : Option String) : Option Scenario :=
  match name, description, scenario_type, severity_level, start_date,
      end_date with
  | some nm, some ds, some stS, some slS, some sd, some ed =>
    match ScenarioType.ofString stS, SeverityLevel.ofString slS with
    | some st, some sl =>
      if strLenOk 200 nm && strLenOk 1000 ds &&
          optIntRangeOk 1 5 hurricane_category &&
          optDecOk 5 2 production_impact_pct &&
          optDecOk 5 2 refining_capacity_impact_pct &&
          optDecOk 5 2 import_disruption_pct && optLenOk 100 created_by then
        some { id := id, name := nm, description := ds, scenario_type := st,
               severity_level := sl, start_date := sd, end_date := ed,
               hurricane_category := hurricane_category,
               affected_regions := affected_regions.getD [],
               production_impact_pct := production_impact_pct.getD dec0,
               refining_capacity_impact_pct :=
                 refining_capacity_impact_pct.getD dec0,
               import_disruption_pct := import_disruption_pct.getD dec0,
               parameters := parameters.getD emptyJsonDict,
               is_active := is_active.getD true, created_by := created_by }
      else none
    | _, _ => none
  | _, _, _, _, _, _ => none

/-! ## ScenarioImpact (models.py lines 188-209) -/

structure ScenarioImpact where
  id : Option Int
  scenario_id : Int
  product_type : ProductType
  disposition_type : DispositionType
  impact_date : PyDate
  baseline_value : Dec
  scenario_value : Dec
  impact_absolute : Dec
  impact_percentage : Dec
  unit : String
  region : Option String
deriving DecidableEq, Repr

/-- Validating constructor for `ScenarioImpact`: `scenario_id` has no
default, so omitting it rejects the construction.  No relation among the
four value fields is declared, so none is checked. -/
def mkScenarioImpact (id : Option Int) (scenario_id : Option Int)
    (product_type : Option String) (disposition_type : Option String)
    (impact_date : Option PyDate)
    (baseline_value scenario_value impact_absolute impact_percentage :
      Option Dec)
    (unit : Option String) (region : Option String) : Option ScenarioImpact :=
  match scenario_id, product_type, disposition_type, impact_date,
      baseline_value, scenario_value, impact_absolute, impact_percentage,
      unit with
  | some si, some ptS, some dtS, some idt, some bv, some sv, some ia,
      some ip, some u =>
    match ProductType.ofString ptS, DispositionType.ofString dtS with
    | some pt, some dt =>
      if decValid 15 2 bv && decValid 15 2 sv && decValid 15 2 ia &&
          decValid 5 2 ip && strLenOk 50 u && optLenOk 100 region then
        some { id := id, scenario_id := si, product_type := pt,
               disposition_type := dt, impact_date := idt,
               baseline_value := bv, scenario_value := sv,
               impact_absolute := ia, impact_percentage := ip,
               unit := u, region := region }
      else none
    | _, _ => none
  | _, _, _, _, _, _, _, _, _ => none

/-! ## PriceData (models.py lines 215-233) -/

structure PriceData where
  id : Option Int
  product_type : ProductType
  price_date : PyDate
  price : Dec
  price_type : String
  location : String
  unit : String
  volume : Option Dec
  open_interest : Option Dec
  volatility : Option Dec
deriving DecidableEq, Repr

/-- Validating constructor for `PriceData`. -/
def mkPriceData (id : Option Int) (product_type : Option String)
    (price_date : Option PyDate) (price : Option Dec)
    (price_type : Option String) (location : Option String)
    (unit : Option String) (volume open_interest volatility : Option Dec) :
    Option PriceData :=
  match product_type, price_date, price, price_type, location, unit with
  | some ptS, some pd, some p, some pt', some loc, some u =>
    match ProductType.ofString ptS with
    | some pt =>
      if decValid 10 4 p && strLenOk 50 pt' && strLenOk 100 loc &&
          strLenOk 50 u && optDecOk 15 2 volume &&
          optDecOk 15 2 open_interest && optDecOk 8 4 volatility then
        some { id := id, product_type := pt, price_date := pd, price := p,
               price_type := pt', location := loc, unit := u,
               volume := volume, open_interest := open_interest,
               volatility := volatility }
      else none
    | none => none
  | _, _, _, _, _, _ => none

/-! ## PriceForecast (models.py lines 236-258) -/

structure PriceForecast where
  id : Option Int
  scenario_id : Option Int
  product_type : ProductType
  forecast_date : PyDate
  forecast_price : Dec
  baseline_price : Dec
  price_impact : Dec
  price_impact_pct : Dec
  confidence_level : Option Dec
  price_type : String
  location : String
  unit : String
deriving DecidableEq, Repr

/-- Validating constructor for `PriceForecast`: its `scenario_id` is
declared `Optional[int] = Field(default=None, ...)`, so omitting it
succeeds with a null scenario reference. -/
def mkPriceForecast (id : Option Int) (scenario_id : Option Int)
    (product_type : Option String) (forecast_date : Option PyDate)
    (forecast_price baseline_price price_impact price_impact_pct :
      Option Dec)
    (confidence_level : Option Dec) (price_type : Option String)
    (location : Option String) (unit : Option String) : Option PriceForecast :=
  match product_type, forecast_date, forecast_price, baseline_price,
      price_impact, price_impact_pct, price_type, location, unit with
  | some ptS, some fd, some fp, some bp, some pi, some pip, some pt',
      some loc, some u =>
    match ProductType.ofString ptS with
    | some pt =>
      if decValid 10 4 fp && decValid 10 4 bp && decValid 10 4 pi &&
          decValid 5 2 pip && optDecOk 5 2 confidence_level &&
          strLenOk 50 pt' && strLenOk 100 loc && strLenOk 50 u then
        some { id := id, scenario_id := scenario_id, product_type := pt,
               forecast_date := fd, forecast_price := fp,
               baseline_price := bp, price_impact := pi,
               price_impact_pct := pip, confidence_level := confidence_level,
               price_type := pt', location := loc, unit := u }
      else none
    | none => none
  | _, _, _, _, _, _, _, _, _ => none

/-! ## SeasonalPattern (models.py lines 264-283) -/

structure SeasonalPattern where
  id : Option Int
  product_type : ProductType
  disposition_type : DispositionType
  month : Int
  region : Option String
  seasonal_index : Dec
  trend_factor : Dec
  volatility_multiplier : Dec
  years_of_data : Int
deriving DecidableEq, Repr

/-- Validating constructor for `SeasonalPattern`: `month` carries
`ge=1, le=12`, `years_of_data` defaults to `10` with `ge=1`. -/
def mkSeasonalPattern (id : Option Int) (product_type : Option String)
    (disposition_type : Option String) (month : Option Int)
    (region : Option String) (seasonal_index : Option Dec)
    (trend_factor volatility_multiplier : Option Dec)
    (years_of_data : Option Int) : Option SeasonalPattern :=
  match month, product_type, disposition_type, seasonal_index with
  | some m, some ptS, some dtS, some si =>
    match ProductType.ofString ptS, DispositionType.ofString dtS with
    | some pt, some dt =>
      if intRangeOk 1 12 m && optLenOk 100 region && decValid 6 4 si &&
          optDecOk 6 4 trend_factor && optDecOk 6 4 volatility_multiplier &&
          intGeOk 1 (years_of_data.getD 10) then
        some { id := id, product_type := pt, disposition_type := dt,
               month := m, region := region, seasonal_index := si,
               trend_factor := trend_factor.getD dec1,
               volatility_multiplier := volatility_multiplier.getD dec1,
               years_of_data := years_of_data.getD 10 }
      else none
    | _, _ => none
  | _, _, _, _ => none

/-! ## HurricaneHistorical (models.py lines 286-310) -/

structure HurricaneHistorical where
  id : Option Int
  hurricane_name : String
  year : Int
  category : Int
  landfall_date : PyDate
  affected_regions : List String
  refinery_capacity_lost_pct : Dec
  production_disruption_days : Int
  price_spike_gasoline_pct : Dec
  price_spike_crude_pct : Dec
  recovery_days_production : Int
  recovery_days_refining : Int
  notes : Option String
deriving DecidableEq, Repr

/-- Validating constructor for `HurricaneHistorical`: `year` carries
`ge=1950`, `category` carries `ge=1, le=5`, and the three day-count
fields default to `0` with `ge=0`. -/
def mkHurricaneHistorical (id : Option Int) (hurricane_name : Option String)
    (year : Option Int) (category : Option Int)
    (landfall_date : Option PyDate) (affected_regions : Option (List String))
    (refinery_capacity_lost_pct : Option Dec)
    (production_disruption_days : Option Int)
    (price_spike_gasoline_pct price_spike_crude_pct : Option Dec)
    (recovery_days_production recovery_days_refining : Option Int)
    (notes : Option String) : Option HurricaneHistorical :=
  match category, hurricane_name, year, landfall_date with
  | some c, some hn, some y, some ld =>
    if strLenOk 100 hn && intGeOk 1950 y && intRangeOk 1 5 c &&
        optDecOk 5 2 refinery_capacity_lost_pct &&
        intGeOk 0 (production_disruption_days.getD 0) &&
        optDecOk 8 2 price_spike_gasoline_pct &&
        optDecOk 8 2 price_spike_crude_pct &&
        intGeOk 0 (recovery_days_production.getD 0) &&
        intGeOk 0 (recovery_days_refining.getD 0) && optLenOk 1000 notes then
      some { id := id, hurricane_name := hn, year := y, category := c,
             landfall_date := ld,
             affected_regions := affected_regions.getD [],
             refinery_capacity_lost_pct :=
               refinery_capacity_lost_pct.getD dec0,
             production_disruption_days := production_disruption_days.getD 0,
             price_spike_gasoline_pct := price_spike_gasoline_pct.getD dec0,
             price_spike_crude_pct := price_spike_crude_pct.getD dec0,
             recovery_days_production := recovery_days_production.getD 0,
             recovery_days_refining := recovery_days_refining.getD 0,
             notes := notes }
    else none
  | _, _, _, _ => none

/-! ## DataAlert (models.py lines 372-393) -/

structure DataAlert where
  id : Option Int
  alert_name : String
  alert_type : String
  product_type : Option ProductType
  threshold_value : Option Dec
  threshold_operator : Option String
  check_frequency_minutes : Int
  cooldown_hours : Int
  severity_level : SeverityLevel
  is_active : Bool
  last_triggered : Option PyDateTime
deriving DecidableEq, Repr

/-- Validating constructor for `DataAlert`: `severity_level` defaults to
`MODERATE`, the two frequency fields default to `60` / `24` with `ge=1`. -/
def mkDataAlert (id : Option Int) (alert_name : Option String)
    (alert_type : Option String) (product_type : Option String)
    (threshold_value : Option Dec) (threshold_operator : Option String)
    (check_frequency_minutes cooldown_hours : Option Int)
    (severity_level : Option String) (is_active : Option Bool)
    (last_triggered : Option PyDateTime) : Option DataAlert :=
  match alert_name, alert_type with
  | some an, some at' =>
    match parseOptEnum ProductType.ofString product_type,
        parseOptEnum SeverityLevel.ofString severity_level with
    | some pt, some sl =>
      if strLenOk 200 an && strLenOk 50 at' &&
          optDecOk 15 4 threshold_value && optLenOk 10 threshold_operator &&
          intGeOk 1 (check_frequency_minutes.getD 60) &&
          intGeOk 1 (cooldown_hours.getD 24) then
        some { id := id, alert_name := an, alert_type := at',
               product_type := pt, threshold_value := threshold_value,
               threshold_operator := threshold_operator,
               check_frequency_minutes := check_frequency_minutes.getD 60,
               cooldown_hours := cooldown_hours.getD 24,
               severity_level := sl.getD .MODERATE,
               is_active := is_active.getD true,
               last_triggered := last_triggered }
      else none
    | _, _ => none
  | _, _ => none

/-! ## EIADataPointCreate (models.py lines 399-407) -/

structure EIADataPointCreate where
  series_id : String
  data_source : DataSourceType
  product_type : ProductType
  disposition_type : DispositionType
  period_date : PyDate
  value : Dec
  unit : String
  region : Option String
deriving DecidableEq, Repr

/-- Validating constructor for the non-persistent `EIADataPointCreate`
request shape. -/
def mkEIADataPointCreate (series_id : Option String)
    (data_source : Option String) (product_type : Option String)
    (disposition_type : Option String) (period_date : Option PyDate)
    (value : Option Dec) (unit : Option String) (region : Option String) :
    Option EIADataPointCreate :=
  match series_id, data_source, product_type, disposition_type, period_date,
      value, unit with
  | some sid, some dsS, some ptS, some dtS, some pd, some v, some u =>
    match DataSourceType.ofString dsS, ProductType.ofString ptS,
        DispositionType.ofString dtS with
    | some ds, some pt, some dt =>
      if strLenOk 100 sid && decValid 15 2 v && strLenOk 50 u &&
          optLenOk 100 region then
        some { series_id := sid, data_source := ds, product_type := pt,
               disposition_type := dt, period_date := pd, value := v,
               unit := u, region := region }
      else none
    | _, _, _ => none
  | _, _, _, _, _, _, _ => none

/-! ## ScenarioCreate (models.py lines 410-422) -/

structure ScenarioCreate where
  name : String
  description : String
  scenario_type : ScenarioType
  severity_level : SeverityLevel
  start_date : PyDate
  end_date : PyDate
  hurricane_category : Option Int
  affected_regions : List String
  production_impact_pct : Dec
  refining_capacity_impact_pct : Dec
  import_disruption_pct : Dec
  parameters : JsonDict
deriving DecidableEq, Repr

/-- Validating constructor for the non-persistent `ScenarioCreate`
request shape; like `Scenario`, no order between `start_date` and
`end_date` is declared, so none is checked. -/
def mkScenarioCreate (name : Option String) (description : Option String)
    (scenario_type : Option String) (severity_level : Option String)
    (start_date : Option PyDate) (end_date : Option PyDate)
    (hurricane_category : Option Int)
    (affected_regions : Option (List String))
    (production_impact_pct refining_capacity_impact_pct
      import_disruption_pct : Option Dec)
    (parameters : Option JsonDict) : Option ScenarioCreate :=
  match name, description, scenario_type, severity_level, start_date,
      end_date with
  | some nm, some ds, some stS, some slS, some sd, some ed =>
    match ScenarioType.ofString stS, SeverityLevel.ofString slS with
    | some st, some sl =>
      if strLenOk 200 nm && strLenOk 1000 ds &&
          optIntRangeOk 1 5 hurricane_category &&
          optDecOk 5 2 production_impact_pct &&
          optDecOk 5 2 refining_capacity_impact_pct &&
          optDecOk 5 2 import_disruption_pct then
        some { name := nm, description := ds, scenario_type := st,
               severity_level := sl, start_date := sd, end_date := ed,
               hurricane_category := hurricane_category,
               affected_regions := affected_regions.getD [],
               production_impact_pct := production_impact_pct.getD dec0,
               refining_capacity_impact_pct :=
                 refining_capacity_impact_pct.getD dec0,
               import_disruption_pct := import_disruption_pct.getD dec0,
               parameters := parameters.getD emptyJsonDict }
      else none
    | _, _ => none
  | _, _, _, _, _, _ => none

/-! ## ScenarioUpdate (models.py lines 425-435) -/

structure ScenarioUpdate where
  name : Option String
  description : Option String
  severity_level : Option SeverityLevel
  start_date : Option PyDate
  end_date : Option PyDate
  production_impact_pct : Option Dec
  refining_capacity_impact_pct : Option Dec
  import_disruption_pct : Option Dec
  parameters : Option JsonDict
  is_active : Option Bool
deriving DecidableEq, Repr

/-- Validating constructor for the partial-update shape `ScenarioUpdate`:
every field defaults to null, so nothing is required. -/
def mkScenarioUpdate (name : Option String) (description : Option String)
    (severity_level : Option String) (start_date : Option PyDate)
    (end_date : Option PyDate)
    (production_impact_pct refining_capacity_impact_pct
      import_disruption_pct : Option Dec)
    (parameters : Option JsonDict) (is_active : Option Bool) :
    Option ScenarioUpdate :=
  match parseOptEnum SeverityLevel.ofString severity_level with
  | some sl =>
    if optLenOk 200 name && optLenOk 1000 description &&
        optDecOk 5 2 production_impact_pct &&
        optDecOk 5 2 refining_capacity_impact_pct &&
        optDecOk 5 2 import_disruption_pct then
      some { name := name, description := description,
             severity_level := sl, start_date := start_date,
             end_date := end_date,
             production_impact_pct := production_impact_pct,
             refining_capacity_impact_pct := refining_capacity_impact_pct,
             import_disruption_pct := import_disruption_pct,
             parameters := parameters, is_active := is_active }
    else none
  | none => none

/-! ## SupplyDispositionSummary (models.py lines 449-458) -/

structure SupplyDispositionSummary where
  product_type : ProductType
  period_date : PyDate
  total_supply : Dec
  total_disposition : Dec
  balance : Dec
  unit : String
  region : Option String
deriving DecidableEq, Repr

/-- Validating constructor for the non-persistent
`SupplyDispositionSummary` view (its `unit` and `region` carry no
`max_length`). -/
def mkSupplyDispositionSummary (product_type : Option String)
    (period_date : Option PyDate)
    (total_supply total_disposition balance : Option Dec)
    (unit : Option String) (region : Option String) :
    Option SupplyDispositionSummary :=
  match product_type, period_date, total_supply, total_disposition, balance,
      unit with
  | some ptS, some pd, some ts, some td, some b, some u =>
    match ProductType.ofString ptS with
    | some pt =>
      if decValid 15 2 ts && decValid 15 2 td && decValid 15 2 b then
        some { product_type := pt, period_date := pd, total_supply := ts,
               total_disposition := td, balance := b, unit := u,
               region := region }
      else none
    | none => none
  | _, _, _, _, _, _ => none

/-! ## Helper lemmas -/

/-- Membership characterisation of `DataSourceType.ofString`. -/
theorem dataSourceType_ofString_mem (s : String) :
    (DataSourceType.ofString s).isSome = true ↔
      s = "STEO" ∨ s = "PSM" ∨ s = "WEEKLY" := by
  unfold DataSourceType.ofString
  split_ifs <;> simp_all

/-- Membership characterisation of `ProductType.ofString`. -/
theorem productType_ofString_mem (s : String) :
    (ProductType.ofString s).isSome = true ↔
      s = "CRUDE_OIL" ∨ s = "GASOLINE" ∨ s = "DISTILLATE" ∨ s = "RESIDUAL" ∨
        s = "JET_FUEL" ∨ s = "PROPANE" ∨ s = "NATURAL_GAS" := by
  unfold ProductType.ofString
  split_ifs <;> simp_all

/-- Membership characterisation of `DispositionType.ofString`. -/
theorem dispositionType_ofString_mem (s : String) :
    (DispositionType.ofString s).isSome = true ↔
      s = "PRODUCTION" ∨ s = "IMPORTS" ∨ s = "EXPORTS" ∨ s = "STOCK_CHANGE" ∨
        s = "REFINERY_INPUT" ∨ s = "DEMAND" := by
  unfold DispositionType.ofString
  split_ifs <;> simp_all

/-- Membership characterisation of `ScenarioType.ofString`. -/
theorem scenarioType_ofString_mem (s : String) :
    (ScenarioType.ofString s).isSome = true ↔
      s = "BASELINE" ∨ s = "HURRICANE" ∨ s = "SUPPLY_SHOCK" ∨
        s = "DEMAND_SURGE" ∨ s = "REFINERY_OUTAGE" := by
  unfold ScenarioType.ofString
  split_ifs <;> simp_all

/-- Membership characterisation of `SeverityLevel.ofString`. -/
theorem severityLevel_ofString_mem (s : String) :
    (SeverityLevel.ofString s).isSome = true ↔
      s = "LOW" ∨ s = "MODERATE" ∨ s = "HIGH" ∨ s = "EXTREME" := by
  unfold SeverityLevel.ofString
  split_ifs <;> simp_all

/-- Constructing an `EIADataPoint` with otherwise valid fields succeeds
exactly when its `data_source` string parses. -/
theorem mkEIADataPoint_isSome_eq_ofString (s : String) :
    (mkEIADataPoint none (some "sid") (some s) (some "GASOLINE")
        (some "DEMAND") (some ⟨2024, 1, 1⟩) (some ⟨100, 0⟩) (some "kb/d")
        none).isSome = (DataSourceType.ofString s).isSome := by
  cases hds : DataSourceType.ofString s <;>
    (simp only [mkEIADataPoint, hds,
      show ProductType.ofString "GASOLINE" = some ProductType.GASOLINE
        from rfl,
      show DispositionType.ofString "DEMAND" = some DispositionType.DEMAND
        from rfl,
      Option.isSome]; try rfl)

/-- A provided `EIADataPoint.value` outside `(15, 2)` precision rejects. -/
theorem decReject_EIADataPoint (d : Dec) (h : decValid 15 2 d = false) :
    mkEIADataPoint none (some "sid") (some "STEO") (some "GASOLINE")
      (some "DEMAND") (some ⟨2024, 1, 1⟩) (some d) (some "kb/d") none
      = none := by
  simp only [mkEIADataPoint,
    show DataSourceType.ofString "STEO" = some DataSourceType.STEO from rfl,
    show ProductType.ofString "GASOLINE" = some ProductType.GASOLINE from rfl,
    show DispositionType.ofString "DEMAND" = some DispositionType.DEMAND
      from rfl,
    h, Bool.and_false, Bool.false_and]
  rfl

/-- A provided `STEOData` decimal outside `(15, 2)` precision rejects. -/
theorem decReject_STEOData (d1 d2 d3 : Dec)
    (h : decValid 15 2 d1 = false ∨ decValid 15 2 d2 = false ∨
      decValid 15 2 d3 = false) :
    mkSTEOData none (some "s") (some "PROPANE") (some ⟨2024, 1, 1⟩)
      (some d1) (some "u") (some d2) (some d3) = none := by
  rcases h with h | h | h <;>
    (simp only [mkSTEOData,
      show ProductType.ofString "PROPANE" = some ProductType.PROPANE from rfl,
      optDecOk, h, Bool.and_false, Bool.false_and]; rfl)

/-- A provided `PSMData.value` outside `(15, 2)` precision rejects. -/
theorem decReject_PSMData (d : Dec) (h : decValid 15 2 d = false) :
    mkPSMData none (some "s") (some "GASOLINE") (some "DEMAND")
      (some ⟨2024, 1, 1⟩) (some d) (some "u") none = none := by
  simp only [mkPSMData,
    show ProductType.ofString "GASOLINE" = some ProductType.GASOLINE from rfl,
    show DispositionType.ofString "DEMAND" = some DispositionType.DEMAND
      from rfl,
    h, Bool.and_false, Bool.false_and]
  rfl

/-- A provided `WeeklyData.value` outside `(15, 2)` precision rejects. -/
theorem decReject_WeeklyData (d : Dec) (h : decValid 15 2 d = false) :
    mkWeeklyData none (some "s") (some "GASOLINE") (some "DEMAND")
      (some ⟨2024, 1, 1⟩) (some d) (some "u") none = none := by
  simp only [mkWeeklyData,
    show ProductType.ofString "GASOLINE" = some ProductType.GASOLINE from rfl,
    show DispositionType.ofString "DEMAND" = some DispositionType.DEMAND
      from rfl,
    h, Bool.and_false, Bool.false_and]
  rfl

/-- A provided `SupplyDisposition` component outside `(15, 2)` precision
rejects, whichever of the seven component fields it is. -/
theorem decReject_SupplyDisposition (d1 d2 d3 d4 d5 d6 d7 : Dec)
    (h : decValid 15 2 d1 = false ∨ decValid 15 2 d2 = false ∨
      decValid 15 2 d3 = false ∨ decValid 15 2 d4 = false ∨
      decValid 15 2 d5 = false ∨ decValid 15 2 d6 = false ∨
      decValid 15 2 d7 = false) :
    mkSupplyDisposition none (some "GASOLINE") (some ⟨2024, 1, 1⟩) none
      (some d1) (some d2) (some d3) (some d4) (some d5) (some d6) (some d7)
      (some "kb/d") none = none := by
  rcases h with h | h | h | h | h | h | h <;>
    (simp only [mkSupplyDisposition,
      show ProductType.ofString "GASOLINE" = some ProductType.GASOLINE
        from rfl,
      optDecOk, h, Bool.and_false, Bool.false_and]; rfl)

/-- A provided `Scenario` impact percentage outside `(5, 2)` precision
rejects. -/
theorem decReject_Scenario (d1 d2 d3 : Dec)
    (h : decValid 5 2 d1 = false ∨ decValid 5 2 d2 = false ∨
      decValid 5 2 d3 = false) :
    mkScenario none (some "s") (some "d") (some "HURRICANE") (some "HIGH")
      (some ⟨2024, 1, 1⟩) (some ⟨2024, 6, 1⟩) none none (some d1) (some d2)
      (some d3) none none none = none := by
  rcases h with h | h | h <;>
    (simp only [mkScenario,
      show ScenarioType.ofString "HURRICANE" = some ScenarioType.HURRICANE
        from rfl,
      show SeverityLevel.ofString "HIGH" = some SeverityLevel.HIGH from rfl,
      optDecOk, h, Bool.and_false, Bool.false_and]; rfl)

/-- A provided `ScenarioImpact` value outside its precision rejects:
`(15, 2)` for the three values, `(5, 2)` for the percentage. -/
theorem decReject_ScenarioImpact (d1 d2 d3 d4 : Dec)
    (h : decValid 15 2 d1 = false ∨ decValid 15 2 d2 = false ∨
      decValid 15 2 d3 = false ∨ decValid 5 2 d4 = false) :
    mkScenarioImpact none (some 1) (some "CRUDE_OIL") (some "PRODUCTION")
      (some ⟨2024, 1, 1⟩) (some d1) (some d2) (some d3) (some d4)
      (some "kb/d") none = none := by
  rcases h with h | h | h | h <;>
    (simp only [mkScenarioImpact,
      show ProductType.ofString "CRUDE_OIL" = some ProductType.CRUDE_OIL
        from rfl,
      show DispositionType.ofString "PRODUCTION"
          = some DispositionType.PRODUCTION from rfl,
      h, Bool.and_false, Bool.false_and]; rfl)

/-- A provided `PriceData` decimal outside its precision rejects:
`(10, 4)` for the price, `(15, 2)` for volume and open interest,
`(8, 4)` for volatility. -/
theorem decReject_PriceData (d1 d2 d3 d4 : Dec)
    (h : decValid 10 4 d1 = false ∨ decValid 15 2 d2 = false ∨
      decValid 15 2 d3 = false ∨ decValid 8 4 d4 = false) :
    mkPriceData none (some "CRUDE_OIL") (some ⟨2024, 1, 1⟩) (some d1)
      (some "spot") (some "NYH") (some "USD") (some d2) (some d3) (some d4)
      = none := by
  rcases h with h | h | h | h <;>
    (simp only [mkPriceData,
      show ProductType.ofString "CRUDE_OIL" = some ProductType.CRUDE_OIL
        from rfl,
      optDecOk, h, Bool.and_false, Bool.false_and]; rfl)

/-- A provided `PriceForecast` decimal outside its precision rejects:
`(10, 4)` for the three prices, `(5, 2)` for the percentage and the
confidence level. -/
theorem decReject_PriceForecast (d1 d2 d3 d4 d5 : Dec)
    (h : decValid 10 4 d1 = false ∨ decValid 10 4 d2 = false ∨
      decValid 10 4 d3 = false ∨ decValid 5 2 d4 = false ∨
      decValid 5 2 d5 = false) :
    mkPriceForecast none none (some "CRUDE_OIL") (some ⟨2024, 1, 1⟩)
      (some d1) (some d2) (some d3) (some d4) (some d5) (some "spot")
      (some "NYH") (some "USD") = none := by
  rcases h with h | h | h | h | h <;>
    (simp only [mkPriceForecast,
      show ProductType.ofString "CRUDE_OIL" = some ProductType.CRUDE_OIL
        from rfl,
      optDecOk, h, Bool.and_false, Bool.false_and]; rfl)

/-- A provided `SeasonalPattern` factor outside `(6, 4)` precision
rejects. -/
theorem decReject_SeasonalPattern (d1 d2 d3 : Dec)
    (h : decValid 6 4 d1 = false ∨ decValid 6 4 d2 = false ∨
      decValid 6 4 d3 = false) :
    mkSeasonalPattern none (some "GASOLINE") (some "DEMAND") (some 7) none
      (some d1) (some d2) (some d3) none = none := by
  rcases h with h | h | h <;>
    (simp only [mkSeasonalPattern,
      show ProductType.ofString "GASOLINE" = some ProductType.GASOLINE
        from rfl,
      show DispositionType.ofString "DEMAND" = some DispositionType.DEMAND
        from rfl,
      optDecOk, h, Bool.and_false, Bool.false_and]; rfl)

/-- A provided `HurricaneHistorical` decimal outside its precision
rejects: `(5, 2)` for the capacity loss, `(8, 2)` for the price spikes. -/
theorem decReject_HurricaneHistorical (d1 d2 d3 : Dec)
    (h : decValid 5 2 d1 = false ∨ decValid 8 2 d2 = false ∨
      decValid 8 2 d3 = false) :
    mkHurricaneHistorical none (some "Katrina") (some 2005) (some 3)
      (some ⟨2005, 8, 29⟩) none (some d1) none (some d2) (some d3) none none
      none = none := by
  rcases h with h | h | h <;>
    (simp only [mkHurricaneHistorical, optDecOk, h, Bool.and_false,
      Bool.false_and]; rfl)

/-- A provided `DataAlert.threshold_value` outside `(15, 4)` precision
rejects. -/
theorem decReject_DataAlert (d : Dec) (h : decValid 15 4 d = false) :
    mkDataAlert none (some "a") (some "threshold") none (some d) none none
      none none none none = none := by
  simp only [mkDataAlert, parseOptEnum, optDecOk, h, Bool.and_false,
    Bool.false_and]
  rfl

/-- A provided `EIADataPointCreate.value` outside `(15, 2)` precision
rejects. -/
theorem decReject_EIADataPointCreate (d : Dec) (h : decValid 15 2 d = false) :
    mkEIADataPointCreate (some "sid") (some "STEO") (some "GASOLINE")
      (some "DEMAND") (some ⟨2024, 1, 1⟩) (some d) (some "kb/d") none
      = none := by
  simp only [mkEIADataPointCreate,
    show DataSourceType.ofString "STEO" = some DataSourceType.STEO from rfl,
    show ProductType.ofString "GASOLINE" = some ProductType.GASOLINE from rfl,
    show DispositionType.ofString "DEMAND" = some DispositionType.DEMAND
      from rfl,
    h, Bool.and_false, Bool.false_and]
  rfl

/-- A provided `ScenarioCreate` impact percentage outside `(5, 2)`
precision rejects. -/
theorem decReject_ScenarioCreate (d1 d2 d3 : Dec)
    (h : decValid 5 2 d1 = false ∨ decValid 5 2 d2 = false ∨
      decValid 5 2 d3 = false) :
    mkScenarioCreate (some "s") (some "d") (some "HURRICANE") (some "HIGH")
      (some ⟨2024, 1, 1⟩) (some ⟨2024, 6, 1⟩) none none (some d1) (some d2)
      (some d3) none = none := by
  rcases h with h | h | h <;>
    (simp only [mkScenarioCreate,
      show ScenarioType.ofString "HURRICANE" = some ScenarioType.HURRICANE
        from rfl,
      show SeverityLevel.ofString "HIGH" = some SeverityLevel.HIGH from rfl,
      optDecOk, h, Bool.and_false, Bool.false_and]; rfl)

/-- A provided `ScenarioUpdate` impact percentage outside `(5, 2)`
precision rejects. -/
theorem decReject_ScenarioUpdate (d1 d2 d3 : Dec)
    (h : decValid 5 2 d1 = false ∨ decValid 5 2 d2 = false ∨
      decValid 5 2 d3 = false) :
    mkScenarioUpdate none none none none none (some d1) (some d2) (some d3)
      none none = none := by
  rcases h with h | h | h <;>
    (simp only [mkScenarioUpdate, parseOptEnum, optDecOk, h, Bool.and_false,
      Bool.false_and]; rfl)

/-- A provided `SupplyDispositionSummary` total outside `(15, 2)`
precision rejects. -/
theorem decReject_SupplyDispositionSummary (d1 d2 d3 : Dec)
    (h : decValid 15 2 d1 = false ∨ decValid 15 2 d2 = false ∨
      decValid 15 2 d3 = false) :
    mkSupplyDispositionSummary (some "GASOLINE") (some ⟨2024, 1, 1⟩)
      (some d1) (some d2) (some d3) (some "kb/d") none = none := by
  rcases h with h | h | h <;>
    (simp only [mkSupplyDispositionSummary,
      show ProductType.ofString "GASOLINE" = some ProductType.GASOLINE
        from rfl,
      h, Bool.and_false, Bool.false_and]; rfl)

/-! ## Claim theorems -/

/-- Claim C1 (corrected). Among the catalog's three foreign-key fields,
only `ScenarioImpact.scenario_id` is required: omitting it rejects the
construction, whatever the other arguments are.
`SupplyDisposition.data_point_id` and `PriceForecast.scenario_id` are
nullable: omitting either succeeds and stores a null reference. -/
theorem foreignKey_nullability :
    (∀ id pt dt idt bv sv ia ip u region,
      mkScenarioImpact id none pt dt idt bv sv ia ip u region = none) ∧
    (mkSupplyDisposition none (some "GASOLINE") (some ⟨2024, 1, 1⟩) none
        none none none none none none none (some "kb/d") none).map
      SupplyDisposition.data_point_id = some none ∧
    (mkPriceForecast none none (some "CRUDE_OIL") (some ⟨2024, 1, 1⟩)
        (some ⟨12345, -4⟩) (some ⟨12345, -4⟩) (some ⟨0, 0⟩) (some ⟨0, 0⟩)
        none (some "spot") (some "NYH") (some "USD")).map
      PriceForecast.scenario_id = some none :=
  ⟨fun _ _ _ _ _ _ _ _ _ _ => rfl, rfl, rfl⟩

/-- Claim C1 counterexample. The claim says `PriceForecast.scenario_id`
is required; in fact constructing a `PriceForecast` without `scenario_id`
succeeds, with the reference null. -/
theorem priceForecast_without_scenario_id_succeeds :
    (mkPriceForecast none none (some "CRUDE_OIL") (some ⟨2024, 1, 2⟩)
        (some ⟨1, 0⟩) (some ⟨1, 0⟩) (some ⟨0, 0⟩) (some ⟨0, 0⟩)
        none (some "spot") (some "NYH") (some "USD")).map
      PriceForecast.scenario_id = some none := rfl

/-- Claim C2. `ScenarioImpact` construction does not enforce the
cross-field relation: a record whose `impact_absolute` (99) differs from
`scenario_value − baseline_value` (15 − 10 = 5) validates successfully. -/
theorem scenarioImpact_no_cross_field_check :
    (mkScenarioImpact none (some 1) (some "CRUDE_OIL") (some "PRODUCTION")
        (some ⟨2024, 1, 1⟩) (some ⟨10, 0⟩) (some ⟨15, 0⟩) (some ⟨99, 0⟩)
        (some ⟨5, 0⟩) (some "kb/d") none).map
      (fun r => (r.baseline_value, r.scenario_value, r.impact_absolute))
      = some (⟨10, 0⟩, ⟨15, 0⟩, ⟨99, 0⟩) ∧
    Dec.toRat ⟨99, 0⟩ ≠ Dec.toRat ⟨15, 0⟩ - Dec.toRat ⟨10, 0⟩ := by
  refine ⟨rfl, ?_⟩
  norm_num [Dec.toRat]

/-- Claim C3. A `Scenario` and a `ScenarioCreate` whose `end_date` is
strictly earlier than `start_date` (2024-01-01 < 2024-06-01) are accepted:
no cross-field date check exists at this layer. -/
theorem scenario_end_before_start_accepted :
    PyDate.lt ⟨2024, 1, 1⟩ ⟨2024, 6, 1⟩ = true ∧
    (mkScenario none (some "s") (some "d") (some "HURRICANE") (some "HIGH")
        (some ⟨2024, 6, 1⟩) (some ⟨2024, 1, 1⟩) none none none none none
        none none none).map Scenario.end_date = some ⟨2024, 1, 1⟩ ∧
    (mkScenarioCreate (some "s") (some "d") (some "HURRICANE") (some "HIGH")
        (some ⟨2024, 6, 1⟩) (some ⟨2024, 1, 1⟩) none none none none none
        none).map ScenarioCreate.end_date = some ⟨2024, 1, 1⟩ :=
  ⟨rfl, rfl, rfl⟩

/-- Claim C4. Each of the five enum-typed field kinds accepts a string
exactly when it is one of the Glossary's literal uppercase member values,
and at construction time an `EIADataPoint`'s `data_source` accepts a
string exactly when it is a `DataSourceType` member. -/
theorem enum_fields_accept_exactly_glossary :
    (∀ s, (DataSourceType.ofString s).isSome = true ↔
      s = "STEO" ∨ s = "PSM" ∨ s = "WEEKLY") ∧
    (∀ s, (ProductType.ofString s).isSome = true ↔
      s = "CRUDE_OIL" ∨ s = "GASOLINE" ∨ s = "DISTILLATE" ∨ s = "RESIDUAL" ∨
        s = "JET_FUEL" ∨ s = "PROPANE" ∨ s = "NATURAL_GAS") ∧
    (∀ s, (DispositionType.ofString s).isSome = true ↔
      s = "PRODUCTION" ∨ s = "IMPORTS" ∨ s = "EXPORTS" ∨ s = "STOCK_CHANGE" ∨
        s = "REFINERY_INPUT" ∨ s = "DEMAND") ∧
    (∀ s, (ScenarioType.ofString s).isSome = true ↔
      s = "BASELINE" ∨ s = "HURRICANE" ∨ s = "SUPPLY_SHOCK" ∨
        s = "DEMAND_SURGE" ∨ s = "REFINERY_OUTAGE") ∧
    (∀ s, (SeverityLevel.ofString s).isSome = true ↔
      s = "LOW" ∨ s = "MODERATE" ∨ s = "HIGH" ∨ s = "EXTREME") ∧
    (∀ s, (mkEIADataPoint none (some "sid") (some s) (some "GASOLINE")
        (some "DEMAND") (some ⟨2024, 1, 1⟩) (some ⟨100, 0⟩) (some "kb/d")
        none).isSome = true ↔ s = "STEO" ∨ s = "PSM" ∨ s = "WEEKLY") :=
  ⟨dataSourceType_ofString_mem, productType_ofString_mem,
   dispositionType_ofString_mem, scenarioType_ofString_mem,
   severityLevel_ofString_mem,
   fun s => by
     rw [mkEIADataPoint_isSome_eq_ofString s]
     exact dataSourceType_ofString_mem s⟩

/-- Claim C5. Every Decimal-typed field of the catalog rejects a provided
value exceeding its configured precision or scale: one conjunct per model,
covering all of that model's decimal fields (the disjunctive hypothesis
names whichever field is out of bounds). -/
theorem decimal_precision_enforced :
    (∀ d, decValid 15 2 d = false →
      mkEIADataPoint none (some "sid") (some "STEO") (some "GASOLINE")
        (some "DEMAND") (some ⟨2024, 1, 1⟩) (some d) (some "kb/d") none
        = none) ∧
    (∀ d1 d2 d3, (decValid 15 2 d1 = false ∨ decValid 15 2 d2 = false ∨
        decValid 15 2 d3 = false) →
      mkSTEOData none (some "s") (some "PROPANE") (some ⟨2024, 1, 1⟩)
        (some d1) (some "u") (some d2) (some d3) = none) ∧
    (∀ d, decValid 15 2 d = false →
      mkPSMData none (some "s") (some "GASOLINE") (some "DEMAND")
        (some ⟨2024, 1, 1⟩) (some d) (some "u") none = none) ∧
    (∀ d, decValid 15 2 d = false →
      mkWeeklyData none (some "s") (some "GASOLINE") (some "DEMAND")
        (some ⟨2024, 1, 1⟩) (some d) (some "u") none = none) ∧
    (∀ d1 d2 d3 d4 d5 d6 d7,
      (decValid 15 2 d1 = false ∨ decValid 15 2 d2 = false ∨
        decValid 15 2 d3 = false ∨ decValid 15 2 d4 = false ∨
        decValid 15 2 d5 = false ∨ decValid 15 2 d6 = false ∨
        decValid 15 2 d7 = false) →
      mkSupplyDisposition none (some "GASOLINE") (some ⟨2024, 1, 1⟩) none
        (some d1) (some d2) (some d3) (some d4) (some d5) (some d6)
        (some d7) (some "kb/d") none = none) ∧
    (∀ d1 d2 d3, (decValid 5 2 d1 = false ∨ decValid 5 2 d2 = false ∨
        decValid 5 2 d3 = false) →
      mkScenario none (some "s") (some "d") (some "HURRICANE") (some "HIGH")
        (some ⟨2024, 1, 1⟩) (some ⟨2024, 6, 1⟩) none none (some d1)
        (some d2) (some d3) none none none = none) ∧
    (∀ d1 d2 d3 d4, (decValid 15 2 d1 = false ∨ decValid 15 2 d2 = false ∨
        decValid 15 2 d3 = false ∨ decValid 5 2 d4 = false) →
      mkScenarioImpact none (some 1) (some "CRUDE_OIL") (some "PRODUCTION")
        (some ⟨2024, 1, 1⟩) (some d1) (some d2) (some d3) (some d4)
        (some "kb/d") none = none) ∧
    (∀ d1 d2 d3 d4, (decValid 10 4 d1 = false ∨ decValid 15 2 d2 = false ∨
        decValid 15 2 d3 = false ∨ decValid 8 4 d4 = false) →
      mkPriceData none (some "CRUDE_OIL") (some ⟨2024, 1, 1⟩) (some d1)
        (some "spot") (some "NYH") (some "USD") (some d2) (some d3)
        (some d4) = none) ∧
    (∀ d1 d2 d3 d4 d5, (decValid 10 4 d1 = false ∨ decValid 10 4 d2 = false ∨
        decValid 10 4 d3 = false ∨ decValid 5 2 d4 = false ∨
        decValid 5 2 d5 = false) →
      mkPriceForecast none none (some "CRUDE_OIL") (some ⟨2024, 1, 1⟩)
        (some d1) (some d2) (some d3) (some d4) (some d5) (some "spot")
        (some "NYH") (some "USD") = none) ∧
    (∀ d1 d2 d3, (decValid 6 4 d1 = false ∨ decValid 6 4 d2 = false ∨
        decValid 6 4 d3 = false) →
      mkSeasonalPattern none (some "GASOLINE") (some "DEMAND") (some 7) none
        (some d1) (some d2) (some d3) none = none) ∧
    (∀ d1 d2 d3, (decValid 5 2 d1 = false ∨ decValid 8 2 d2 = false ∨
        decValid 8 2 d3 = false) →
      mkHurricaneHistorical none (some "Katrina") (some 2005) (some 3)
        (some ⟨2005, 8, 29⟩) none (some d1) none (some d2) (some d3) none
        none none = none) ∧
    (∀ d, decValid 15 4 d = false →
      mkDataAlert none (some "a") (some "threshold") none (some d) none
        none none none none none = none) ∧
    (∀ d, decValid 15 2 d = false →
      mkEIADataPointCreate (some "sid") (some "STEO") (some "GASOLINE")
        (some "DEMAND") (some ⟨2024, 1, 1⟩) (some d) (some "kb/d") none
        = none) ∧
    (∀ d1 d2 d3, (decValid 5 2 d1 = false ∨ decValid 5 2 d2 = false ∨
        decValid 5 2 d3 = false) →
      mkScenarioCreate (some "s") (some "d") (some "HURRICANE") (some "HIGH")
        (some ⟨2024, 1, 1⟩) (some ⟨2024, 6, 1⟩) none none (some d1)
        (some d2) (some d3) none = none) ∧
    (∀ d1 d2 d3, (decValid 5 2 d1 = false ∨ decValid 5 2 d2 = false ∨
        decValid 5 2 d3 = false) →
      mkScenarioUpdate none none none none none (some d1) (some d2)
        (some d3) none none = none) ∧
    (∀ d1 d2 d3, (decValid 15 2 d1 = false ∨ decValid 15 2 d2 = false ∨
        decValid 15 2 d3 = false) →
      mkSupplyDispositionSummary (some "GASOLINE") (some ⟨2024, 1, 1⟩)
        (some d1) (some d2) (some d3) (some "kb/d") none = none) :=
  ⟨decReject_EIADataPoint, decReject_STEOData, decReject_PSMData,
   decReject_WeeklyData, decReject_SupplyDisposition, decReject_Scenario,
   decReject_ScenarioImpact, decReject_PriceData, decReject_PriceForecast,
   decReject_SeasonalPattern, decReject_HurricaneHistorical,
   decReject_DataAlert, decReject_EIADataPointCreate,
   decReject_ScenarioCreate, decReject_ScenarioUpdate,
   decReject_SupplyDispositionSummary⟩

/-- Concrete check for the decimal-precision claim: `0.123` has three
decimal places, so it is rejected for `EIADataPoint.value` (which allows
two). -/
theorem decimal_precision_enforced_witness :
    mkEIADataPoint none (some "sid") (some "STEO") (some "GASOLINE")
      (some "DEMAND") (some ⟨2024, 1, 1⟩) (some ⟨123, -3⟩) (some "kb/d")
      none = none :=
  decimal_precision_enforced.1 ⟨123, -3⟩ (by decide)

/-- Claim C6. `Scenario.hurricane_category`,
`ScenarioCreate.hurricane_category` and `HurricaneHistorical.category`
accept exactly the integers 1 through 5, and `hurricane_category` may be
omitted, in which case it stays null. -/
theorem hurricane_category_range :
    (∀ v : Int, (mkScenario none (some "s") (some "d") (some "HURRICANE")
        (some "HIGH") (some ⟨2024, 1, 1⟩) (some ⟨2024, 6, 1⟩) (some v) none
        none none none none none none).isSome = true ↔ 1 ≤ v ∧ v ≤ 5) ∧
    (∀ v : Int, (mkScenarioCreate (some "s") (some "d") (some "HURRICANE")
        (some "HIGH") (some ⟨2024, 1, 1⟩) (some ⟨2024, 6, 1⟩) (some v) none
        none none none none).isSome = true ↔ 1 ≤ v ∧ v ≤ 5) ∧
    (∀ v : Int, (mkHurricaneHistorical none (some "Katrina") (some 2005)
        (some v) (some ⟨2005, 8, 29⟩) none none none none none none none
        none).isSome = true ↔ 1 ≤ v ∧ v ≤ 5) ∧
    (mkScenario none (some "s") (some "d") (some "HURRICANE") (some "HIGH")
        (some ⟨2024, 1, 1⟩) (some ⟨2024, 6, 1⟩) none none none none none
        none none none).map Scenario.hurricane_category = some none := by
  refine ⟨?_, ?_, ?_, rfl⟩
  · intro v
    simp only [mkScenario,
      show ScenarioType.ofString "HURRICANE" = some ScenarioType.HURRICANE
        from rfl,
      show SeverityLevel.ofString "HIGH" = some SeverityLevel.HIGH from rfl,
      optIntRangeOk, intRangeOk,
      show strLenOk 200 "s" = true from rfl,
      show strLenOk 1000 "d" = true from rfl,
      show optDecOk 5 2 (none : Option Dec) = true from rfl,
      show optLenOk 100 (none : Option String) = true from rfl,
      Bool.true_and, Bool.and_true, Bool.and_eq_true, decide_eq_true_eq]
    split <;> simp_all
  · intro v
    simp only [mkScenarioCreate,
      show ScenarioType.ofString "HURRICANE" = some ScenarioType.HURRICANE
        from rfl,
      show SeverityLevel.ofString "HIGH" = some SeverityLevel.HIGH from rfl,
      optIntRangeOk, intRangeOk,
      show strLenOk 200 "s" = true from rfl,
      show strLenOk 1000 "d" = true from rfl,
      show optDecOk 5 2 (none : Option Dec) = true from rfl,
      Bool.true_and, Bool.and_true, Bool.and_eq_true, decide_eq_true_eq]
    split <;> simp_all
  · intro v
    simp only [mkHurricaneHistorical, intRangeOk,
      show strLenOk 100 "Katrina" = true from rfl,
      show intGeOk 1950 2005 = true from rfl,
      show optDecOk 5 2 (none : Option Dec) = true from rfl,
      show optDecOk 8 2 (none : Option Dec) = true from rfl,
      show intGeOk 0 ((none : Option Int).getD 0) = true from rfl,
      show optLenOk 1000 (none : Option String) = true from rfl,
      Bool.true_and, Bool.and_true, Bool.and_eq_true, decide_eq_true_eq]
    split <;> simp_all

/-- Claim C7. `SeasonalPattern.month` accepts exactly the integers 1
through 12: with every other field valid, construction succeeds precisely
when the month lies in the calendar range. -/
theorem seasonalPattern_month_range :
    ∀ m : Int, (mkSeasonalPattern none (some "GASOLINE") (some "DEMAND")
        (some m) none (some ⟨10000, -4⟩) none none none).isSome = true ↔
      1 ≤ m ∧ m ≤ 12 := by
  intro m
  simp only [mkSeasonalPattern,
    show ProductType.ofString "GASOLINE" = some ProductType.GASOLINE
      from rfl,
    show DispositionType.ofString "DEMAND" = some DispositionType.DEMAND
      from rfl,
    intRangeOk,
    show optLenOk 100 (none : Option String) = true from rfl,
    show decValid 6 4 ⟨10000, -4⟩ = true from rfl,
    show optDecOk 6 4 (none : Option Dec) = true from rfl,
    show intGeOk 1 ((none : Option Int).getD 10) = true from rfl,
    Bool.true_and, Bool.and_true, Bool.and_eq_true, decide_eq_true_eq]
  split <;> simp_all

/-- Claim C8. The empty patch validates: a `ScenarioUpdate` constructed
with no field set succeeds, every field defaulting to null. -/
theorem scenarioUpdate_empty_patch_valid :
    mkScenarioUpdate none none none none none none none none none none =
      some { name := none, description := none, severity_level := none,
             start_date := none, end_date := none,
             production_impact_pct := none,
             refining_capacity_impact_pct := none,
             import_disruption_pct := none, parameters := none,
             is_active := none } := rfl

/-- Claim C9. A `SupplyDisposition` constructed without any of its seven
component fields has each component equal to `Decimal("0")`, whose value
is the number zero. -/
theorem supplyDisposition_components_default_zero :
    (mkSupplyDisposition none (some "GASOLINE") (some ⟨2024, 1, 1⟩) none
        none none none none none none none (some "kb/d") none).map
      (fun r => (r.production, r.imports, r.stock_withdrawal, r.exports,
        r.refinery_input, r.product_supplied, r.stock_build))
      = some (dec0, dec0, dec0, dec0, dec0, dec0, dec0) ∧
    Dec.toRat dec0 = 0 := by
  refine ⟨rfl, ?_⟩
  norm_num [Dec.toRat, dec0]

/-- Claim C10. The three `HurricaneHistorical` day-count fields accept
exactly the integers ≥ 0 (with every other field valid, construction
succeeds precisely when the provided count is nonnegative), and each
defaults to 0 when omitted. -/
theorem hurricane_day_counts_nonneg :
    (∀ n : Int, (mkHurricaneHistorical none (some "Katrina") (some 2005)
        (some 3) (some ⟨2005, 8, 29⟩) none none (some n) none none none
        none none).isSome = true ↔ 0 ≤ n) ∧
    (∀ n : Int, (mkHurricaneHistorical none (some "Katrina") (some 2005)
        (some 3) (some ⟨2005, 8, 29⟩) none none none none none (some n)
        none none).isSome = true ↔ 0 ≤ n) ∧
    (∀ n : Int, (mkHurricaneHistorical none (some "Katrina") (some 2005)
        (some 3) (some ⟨2005, 8, 29⟩) none none none none none none
        (some n) none).isSome = true ↔ 0 ≤ n) ∧
    (mkHurricaneHistorical none (some "Katrina") (some 2005) (some 3)
        (some ⟨2005, 8, 29⟩) none none none none none none none none).map
      (fun r => (r.production_disruption_days, r.recovery_days_production,
        r.recovery_days_refining)) = some (0, 0, 0) := by
  refine ⟨?_, ?_, ?_, rfl⟩ <;>
    (intro n
     simp only [mkHurricaneHistorical, intGeOk, Option.getD_some,
       show strLenOk 100 "Katrina" = true from rfl,
       show intGeOk 1950 2005 = true from rfl,
       show intRangeOk 1 5 3 = true from rfl,
       show optDecOk 5 2 (none : Option Dec) = true from rfl,
       show optDecOk 8 2 (none : Option Dec) = true from rfl,
       show intGeOk 0 ((none : Option Int).getD 0) = true from rfl,
       show optLenOk 1000 (none : Option String) = true from rfl,
       Bool.true_and, Bool.and_true, Bool.and_eq_true, decide_eq_true_eq]
     split <;> simp_all)

end EIA
